import Mathlib

/-!
Verification development for the prompt-evaluation pipeline of the
`prompt-eval` repository (Angular frontend + Express backend + evalController).

The TypeScript sources are shallowly embedded:

* `extractFirstJsonBlock`, `tryParseJson`, `evaluatePromptWithGemini`,
  `evaluate`, `evaluatePromptWithMyFlaskAI` come from `evalController.ts`;
* `evaluatePrompt` (the lazy-regex variant parsing `match[1]`) comes from
  `backend/src/Controllers/Prompts/evaluate.ts`;
* `avg`, `toTenFmt`, `mapScores`, `awardXP`, `saveScoreToHistory`,
  `handleResultsAndRecommendations`, `buildPromptFromForm` and friends come
  from `prompt-evaluation.component.ts`;
* the `(template, user, day)` usage counter comes from the
  `EvaluationSchema.post('save')` hook in `Controllers/Auth/auth.ts`.

JavaScript numbers are modelled as rationals, `JSON.parse` as a fuel-based
recursive-descent parser over `List Char`, and the two regular expressions
used for JSON extraction as explicit scanning functions whose behaviour
matches the JS regex semantics on the patterns in question.
-/

/-- JSON values as produced by `JSON.parse` (numbers as rationals). -/
inductive Json where
  | null : Json
  | bool (b : Bool) : Json
  | num (q : Rat) : Json
  | str (s : String) : Json
  | arr (elems : List Json) : Json
  | obj (fields : List (String × Json)) : Json

/-- The characters `\x7b` and `\x7d`. -/
def lbrace : Char := Char.ofNat 123
def rbrace : Char := Char.ofNat 125

/-- Whitespace accepted by `JSON.parse` between tokens. -/
def isJsonWs (c : Char) : Bool :=
  c = ' ' || c = '\t' || c = '\n' || c = '\r'

/-- Whitespace trimmed by JavaScript `String.prototype.trim` (common subset). -/
def isJsWs (c : Char) : Bool :=
  c = ' ' || c = '\t' || c = '\n' || c = '\r' ||
  c = Char.ofNat 11 || c = Char.ofNat 12 || c = Char.ofNat 160 ||
  c = Char.ofNat 65279

def skipJsonWs (cs : List Char) : List Char := cs.dropWhile isJsonWs

/-- JavaScript `trim` on a character list. -/
def jsTrimList (cs : List Char) : List Char :=
  ((cs.dropWhile isJsWs).reverse.dropWhile isJsWs).reverse

/-- JavaScript `s.trim()`. -/
def jsTrim (s : String) : String := String.mk (jsTrimList s.data)

def natFromDigits (ds : List Char) : Nat :=
  ds.foldl (fun a c => a * 10 + (c.toNat - 48)) 0

/-- `10 ^ e` by structural recursion (kernel-reducible). -/
def pow10 : Nat → Nat
  | 0 => 1
  | e + 1 => 10 * pow10 e

/-- Addition on ℚ written through `mkRat` so that it evaluates inside the
    kernel (`Rat.add` is irreducible); proved equal to `+` below. -/
def qadd (a b : Rat) : Rat :=
  mkRat (a.num * b.den + b.num * a.den) (a.den * b.den)

/-- Sum of a list of rationals, as JavaScript `reduce((a, b) => a + b, 0)`. -/
def qsum (xs : List Rat) : Rat := xs.foldl qadd 0

/-- Division of a rational by a natural number, through `mkRat`. -/
def qdivNat (a : Rat) (n : Nat) : Rat := mkRat a.num (a.den * n)

/-- Multiplication of a rational by a natural number, through `mkRat`. -/
def qmulNat (a : Rat) (n : Nat) : Rat := mkRat (a.num * n) a.den

/-- JavaScript `Math.round`: `⌊q + 1/2⌋` (half rounds toward `+∞`),
    computed on the numerator/denominator representation. -/
def jsRound (q : Rat) : Int := (mkRat (2 * q.num + q.den) (2 * q.den)).floor

def hexVal (c : Char) : Option Nat :=
  if c.isDigit then some (c.toNat - 48)
  else if 97 ≤ c.toNat && c.toNat ≤ 102 then some (c.toNat - 87)
  else if 65 ≤ c.toNat && c.toNat ≤ 70 then some (c.toNat - 55)
  else none

/-- Parse the body of a JSON string literal (after the opening quote),
    honouring the escape sequences `JSON.parse` accepts and rejecting raw
    control characters. Returns the decoded string and the remaining input. -/
def parseStrBody : Nat → List Char → Option (String × List Char)
  | 0, _ => none
  | _ + 1, [] => none
  | fuel + 1, c :: t =>
    if c = '"' then some ("", t)
    else if c = '\\' then
      match t with
      | [] => none
      | e :: t2 =>
        if e = 'u' then
          match t2 with
          | h1 :: h2 :: h3 :: h4 :: t3 =>
            match hexVal h1, hexVal h2, hexVal h3, hexVal h4 with
            | some a, some b, some c3, some d =>
              match parseStrBody fuel t3 with
              | some (rest, cs) =>
                some (String.mk (Char.ofNat (((a * 16 + b) * 16 + c3) * 16 + d) :: rest.data), cs)
              | none => none
            | _, _, _, _ => none
          | _ => none
        else
          let dec : Option Char :=
            if e = '"' then some '"'
            else if e = '\\' then some '\\'
            else if e = '/' then some '/'
            else if e = 'b' then some (Char.ofNat 8)
            else if e = 'f' then some (Char.ofNat 12)
            else if e = 'n' then some '\n'
            else if e = 'r' then some '\r'
            else if e = 't' then some '\t'
            else none
          match dec with
          | none => none
          | some d =>
            match parseStrBody fuel t2 with
            | some (rest, cs) => some (String.mk (d :: rest.data), cs)
            | none => none
    else if c.toNat < 32 then none
    else
      match parseStrBody fuel t with
      | some (rest, cs) => some (String.mk (c :: rest.data), cs)
      | none => none

/-- Parse a JSON number per the `JSON.parse` grammar:
    `-?(0|[1-9][0-9]*)(\.[0-9]+)?([eE][+-]?[0-9]+)?`. -/
def parseNum (cs : List Char) : Option (Rat × List Char) :=
  let (neg, cs1) :=
    match cs with
    | c :: t => if c = '-' then (true, t) else (false, cs)
    | [] => (false, cs)
  match cs1 with
  | [] => none
  | c :: t =>
    let intPart : Option (Nat × List Char) :=
      if c = '0' then
        match t with
        | d :: _ => if d.isDigit then none else some (0, t)
        | [] => some (0, t)
      else if c.isDigit then
        let (ds, rest) := t.span Char.isDigit
        some (natFromDigits (c :: ds), rest)
      else none
    match intPart with
    | none => none
    | some (ip, rest1) =>
      let fracPart : Option (Nat × Nat × List Char) :=
        match rest1 with
        | d :: t1 =>
          if d = '.' then
            let (ds, rest2) := t1.span Char.isDigit
            if ds = [] then none else some (natFromDigits ds, ds.length, rest2)
          else some (0, 0, rest1)
        | [] => some (0, 0, rest1)
      match fracPart with
      | none => none
      | some (fp, flen, rest2) =>
        let expPart : Option (Int × List Char) :=
          match rest2 with
          | e :: t2 =>
            if e = 'e' || e = 'E' then
              let (esign, t3) :=
                match t2 with
                | s :: t4 =>
                  if s = '+' then ((1 : Int), t4)
                  else if s = '-' then ((-1 : Int), t4)
                  else ((1 : Int), t2)
                | [] => ((1 : Int), t2)
              let (ds, rest3) := t3.span Char.isDigit
              if ds = [] then none
              else some (esign * (natFromDigits ds : Int), rest3)
            else some (0, rest2)
          | [] => some (0, rest2)
        match expPart with
        | none => none
        | some (ex, rest3) =>
          let mantissa : Int := (ip * pow10 flen + fp : Nat)
          let signed : Int := if neg then -mantissa else mantissa
          let q : Rat :=
            if 0 ≤ ex then mkRat (signed * (pow10 ex.toNat : Nat)) (pow10 flen)
            else mkRat signed (pow10 flen * pow10 (-ex).toNat)
          some (q, rest3)

mutual

/-- Fuel-based recursive-descent parser for a single JSON value.
    Expects no leading whitespace; returns the value and the unconsumed rest. -/
def parseVal : Nat → List Char → Option (Json × List Char)
  | 0, _ => none
  | _ + 1, [] => none
  | fuel + 1, c :: t =>
    if c = lbrace then parseObjItems fuel (skipJsonWs t)
    else if c = '[' then parseArrItems fuel (skipJsonWs t)
    else if c = '"' then
      match parseStrBody (t.length + 1) t with
      | some (s, rest) => some (Json.str s, rest)
      | none => none
    else if c = 't' then
      match t with
      | 'r' :: 'u' :: 'e' :: rest => some (Json.bool true, rest)
      | _ => none
    else if c = 'f' then
      match t with
      | 'a' :: 'l' :: 's' :: 'e' :: rest => some (Json.bool false, rest)
      | _ => none
    else if c = 'n' then
      match t with
      | 'u' :: 'l' :: 'l' :: rest => some (Json.null, rest)
      | _ => none
    else if c = '-' || c.isDigit then
      match parseNum (c :: t) with
      | some (q, rest) => some (Json.num q, rest)
      | none => none
    else none

/-- Items of a JSON object after the opening brace (whitespace skipped). -/
def parseObjItems : Nat → List Char → Option (Json × List Char)
  | 0, _ => none
  | _ + 1, [] => none
  | fuel + 1, c :: t =>
    if c = rbrace then some (Json.obj [], t)
    else
      match parseObjMembers fuel (c :: t) with
      | some (ms, rest) => some (Json.obj ms, rest)
      | none => none

/-- One-or-more `"key": value` members followed by the closing brace. -/
def parseObjMembers : Nat → List Char → Option (List (String × Json) × List Char)
  | 0, _ => none
  | _ + 1, [] => none
  | fuel + 1, c :: t =>
    if c = '"' then
      match parseStrBody (t.length + 1) t with
      | none => none
      | some (key, rest1) =>
        match skipJsonWs rest1 with
        | ':' :: rest2 =>
          match parseVal fuel (skipJsonWs rest2) with
          | none => none
          | some (v, rest3) =>
            match skipJsonWs rest3 with
            | ',' :: rest4 =>
              match parseObjMembers fuel (skipJsonWs rest4) with
              | some (ms, rest5) => some ((key, v) :: ms, rest5)
              | none => none
            | d :: rest4 =>
              if d = rbrace then some ([(key, v)], rest4) else none
            | [] => none
        | _ => none
    else none

/-- Elements of a JSON array after the opening bracket (whitespace skipped). -/
def parseArrItems : Nat → List Char → Option (Json × List Char)
  | 0, _ => none
  | _ + 1, [] => none
  | fuel + 1, c :: t =>
    if c = ']' then some (Json.arr [], t)
    else
      match parseArrElems fuel (c :: t) with
      | some (es, rest) => some (Json.arr es, rest)
      | none => none

/-- One-or-more array elements followed by the closing bracket. -/
def parseArrElems : Nat → List Char → Option (List Json × List Char)
  | 0, _ => none
  | fuel + 1, cs =>
    match parseVal fuel cs with
    | none => none
    | some (v, rest) =>
      match skipJsonWs rest with
      | ',' :: rest2 =>
        match parseArrElems fuel (skipJsonWs rest2) with
        | some (es, rest3) => some (v :: es, rest3)
        | none => none
      | ']' :: rest2 => some ([v], rest2)
      | _ => none

end

/-- Model of `JSON.parse(s)`: `some` on success, `none` when it would throw. -/
def jsonParse (s : String) : Option Json :=
  let cs := skipJsonWs s.data
  match parseVal (cs.length + 1) cs with
  | some (j, rest) => if skipJsonWs rest = [] then some j else none
  | none => none

example : jsonParse "\x7b\"clarity\": 7\x7d" = some (Json.obj [("clarity", Json.num (mkRat 7 1))]) := rfl
example : jsonParse "\x7b\"a\": 1,\x7d" = none := rfl
example : jsonParse "\x7b\"a\": \x7b" = none := rfl
example : jsonParse "undefined" = none := rfl
example : jsonParse " [1, true, null] " =
    some (Json.arr [Json.num (mkRat 1 1), Json.bool true, Json.null]) := rfl
example : jsonParse "\x7b\"a\": \x7b\"b\": 2.5\x7d\x7d" =
    some (Json.obj [("a", Json.obj [("b", Json.num (mkRat 5 2))])]) := rfl
example : jsonParse "-1.5e2" = some (Json.num (mkRat (-150) 1)) := rfl

/-! ## Regex models for the two extraction patterns

`evalController.ts` uses `/```json\s*([\s\S]*?)\s*```/i` (fenced block,
lazy body) and `/\{[\s\S]*\}/m` (greedy bare object);
`backend/src/Controllers/Prompts/evaluate.ts` uses `/\{[\s\S]*?\}/`
(lazy bare object). These scanning functions realize the match semantics
of those patterns. -/

/-- `needle` matches at the head of `hay` under character comparison `eqc`. -/
def matchesAt (eqc : Char → Char → Bool) : List Char → List Char → Bool
  | [], _ => true
  | _ :: _, [] => false
  | n :: ns, h :: hs => eqc n h && matchesAt eqc ns hs

/-- Split `hay` at the first occurrence of `needle` (under `eqc`):
    returns the text before the occurrence and the text after it. -/
def splitAtNeedle (eqc : Char → Char → Bool) (needle : List Char) :
    List Char → Option (List Char × List Char)
  | [] => if matchesAt eqc needle [] then some ([], []) else none
  | h :: t =>
    if matchesAt eqc needle (h :: t) then some ([], (h :: t).drop needle.length)
    else
      match splitAtNeedle eqc needle t with
      | some (b, a) => some (h :: b, a)
      | none => none

/-- Exact character comparison. -/
def eqEx (c d : Char) : Bool := c = d

/-- Case-insensitive character comparison (the `/i` flag). -/
def eqCI (c d : Char) : Bool := c.toLower = d.toLower

/-- First index of character `c` in `cs`. -/
def firstIdxOf (c : Char) : List Char → Option Nat
  | [] => none
  | h :: t =>
    if h = c then some 0
    else
      match firstIdxOf c t with
      | some i => some (i + 1)
      | none => none

/-- Last index of character `c` in `cs`. -/
def lastIdxOf (c : Char) (cs : List Char) : Option Nat :=
  match firstIdxOf c cs.reverse with
  | some i => some (cs.length - 1 - i)
  | none => none

/-- The capture group of `/```json\s*([\s\S]*?)\s*```/i`, already trimmed:
    the text between the first (case-insensitive) ` ```json ` opener and the
    next ` ``` ` closer. `none` when the pattern does not match. -/
def fencedCapture (text : String) : Option String :=
  match splitAtNeedle eqCI "```json".data text.data with
  | none => none
  | some (_, rest) =>
    match splitAtNeedle eqEx "```".data rest with
    | none => none
    | some (body, _) => some (jsTrim (String.mk body))

/-- The full match of the greedy `/\{[\s\S]*\}/m`: from the first `\x7b`
    that precedes the last `\x7d` up to that last `\x7d`. -/
def braceGreedy (cs : List Char) : Option (List Char) :=
  match firstIdxOf lbrace cs, lastIdxOf rbrace cs with
  | some i, some j => if i < j then some ((cs.drop i).take (j - i + 1)) else none
  | _, _ => none

/-- The full match of the lazy `/\{[\s\S]*?\}/`: from the first `\x7b`
    that is followed by some `\x7d` up to the first such `\x7d`. -/
def braceLazy (cs : List Char) : Option (List Char) :=
  match firstIdxOf lbrace cs with
  | none => none
  | some i =>
    match firstIdxOf rbrace (cs.drop (i + 1)) with
    | none => none
    | some d => some ((cs.drop i).take (d + 2))

/-- A JS `String.prototype.match` result: `m0` is `match[0]` (the full
    match), `m1` is `match[1]` (`none` when the pattern has no capture
    group, i.e. JS `undefined`). -/
structure RegexMatch where
  m0 : String
  m1 : Option String

/-- `JSON.parse` applied to a possibly-`undefined` argument: a non-string
    argument is coerced to a string first, and `undefined` prints as
    `"undefined"` (which then fails to parse). -/
def jsJsonParse (v : Option String) : Option Json :=
  jsonParse (v.getD "undefined")

/-! ## evalController.ts -/

/-- `extractFirstJsonBlock` from `evalController.ts`: prefer the fenced
    ```` ```json ```` block (when its capture is truthy, i.e. nonempty);
    otherwise fall back to the greedy bare-object match; else `null`. -/
def extractFirstJsonBlock (text : String) : Option String :=
  match fencedCapture text with
  | some s => if s = "" then (braceGreedy text.data).map (fun m => jsTrim (String.mk m)) else some s
  | none => (braceGreedy text.data).map (fun m => jsTrim (String.mk m))

/-- `tryParseJson` from `evalController.ts`: `null` for a falsy argument,
    otherwise `JSON.parse` with the exception swallowed to `null`. -/
def tryParseJson (raw : Option String) : Option Json :=
  match raw with
  | none => none
  | some s => if s = "" then none else jsonParse s

/-- The minimal object `evaluatePromptWithGemini` returns when parsing
    fails: all five dimensions `null`, empty `suggestions` and
    `rewriteVersions`, the raw model text and a parse-error message. -/
def geminiFallback (text : String) : Json :=
  Json.obj [("clarity", Json.null), ("context", Json.null), ("relevance", Json.null),
            ("specificity", Json.null), ("creativity", Json.null),
            ("suggestions", Json.arr []), ("rewriteVersions", Json.arr []),
            ("_raw", Json.str text), ("_error", Json.str "Failed to parse JSON from model output.")]

/-- `evaluatePromptWithGemini` from `evalController.ts`, as a function of
    the model's reply text (the `model.invoke` call is the external LLM). -/
def evaluatePromptWithGemini (text : String) : Json :=
  match tryParseJson (extractFirstJsonBlock text) with
  | none => geminiFallback text
  | some parsed => parsed

/-! ## backend/src/Controllers/Prompts/evaluate.ts -/

/-- `content.match(/\{[\s\S]*?\}/)` — the pattern has no capture group,
    so `match[1]` is JS `undefined` (`none`). -/
def braceLazyMatch (content : String) : Option RegexMatch :=
  (braceLazy content.data).map (fun m => ⟨String.mk m, none⟩)

/-- `evaluatePrompt` from `backend/src/Controllers/Prompts/evaluate.ts`,
    as a function of the model's reply text: lazy brace match, then
    `JSON.parse(match[1])` with the exception swallowed to `\x7b\x7d`. -/
def evaluatePrompt (content : String) : Json :=
  match braceLazyMatch content with
  | none => Json.obj []
  | some m =>
    match jsJsonParse m.m1 with
    | some j => j
    | none => Json.obj []

/-- The same function as shipped in `backend/dist/.../evaluate.js`, which
    reads `match[0]` instead of `match[1]`. -/
def evaluatePromptDist (content : String) : Json :=
  match braceLazyMatch content with
  | none => Json.obj []
  | some m =>
    match jsJsonParse (some m.m0) with
    | some j => j
    | none => Json.obj []

example : extractFirstJsonBlock "pre ```json \x7b\"a\": 1\x7d ``` post \x7b\"b\": 2\x7d" =
    some "\x7b\"a\": 1\x7d" := rfl
example : extractFirstJsonBlock "text \x7b\"b\": 2\x7d more" = some "\x7b\"b\": 2\x7d" := rfl
example : extractFirstJsonBlock "no json here" = none := rfl
example : evaluatePrompt "\x7b\"clarity\": 7\x7d" = Json.obj [] := rfl
example : evaluatePromptDist "\x7b\"clarity\": 7\x7d" =
    Json.obj [("clarity", Json.num (mkRat 7 1))] := rfl
example : evaluatePromptDist "\x7b\"a\": \x7b\"b\": 1\x7d\x7d" = Json.obj [] := rfl

/-! ## Decimal rendering helpers (JS number-to-string for the cases used) -/

def natReprAux : Nat → Nat → List Char
  | 0, _ => []
  | f + 1, n =>
    if n < 10 then [Char.ofNat (48 + n)]
    else natReprAux f (n / 10) ++ [Char.ofNat (48 + n % 10)]

def natRepr (n : Nat) : String := String.mk (natReprAux (n + 1) n)

def intRepr (n : Int) : String :=
  if n < 0 then "-" ++ natRepr (-n).toNat else natRepr n.toNat

/-- `Math.max` on integers, written as the code's policy `max(a, b)`. -/
def intMax (a b : Int) : Int := if a ≤ b then b else a

/-- JS number printing of `m / 10` for `m ≥ 0` (integers print bare,
    otherwise one decimal digit). -/
def tenthsRepr (m : Nat) : String :=
  if m % 10 = 0 then natRepr (m / 10)
  else natRepr (m / 10) ++ "." ++ natRepr (m % 10)

/-- `score.toFixed(1)` for the non-negative scores in play. -/
def toFixed1 (q : Rat) : String :=
  let m := jsRound (qmulNat q 10)
  if m < 0 then "-" ++ natRepr ((-m).toNat / 10) ++ "." ++ natRepr ((-m).toNat % 10)
  else natRepr (m.toNat / 10) ++ "." ++ natRepr (m.toNat % 10)

/-! ## prompt-evaluation.component.ts -/

structure Suggestion where
  text : String
deriving DecidableEq

structure RewriteVersion where
  title : String
  content : String
  improvements : List Suggestion
deriving DecidableEq

/-- `resp.scores.final_scores` — five dimensions, each possibly `null`. -/
structure FinalScores where
  clarity : Option Rat
  context : Option Rat
  relevance : Option Rat
  specificity : Option Rat
  creativity : Option Rat
deriving DecidableEq

/-- The server response consumed by `handleResultsAndRecommendations`.
    `suggestions`/`rewriteVersions` are `some` exactly when
    `llm_evaluation` carries an array there (`Array.isArray`). -/
structure ScoresResponse where
  final_scores : FinalScores
  suggestions : Option (List Suggestion)
  rewriteVersions : Option (List RewriteVersion)
  trace_id : Option String
deriving DecidableEq

/-- The dimension order used by `mapScores` when computing the overall. -/
def dims (f : FinalScores) : List (Option Rat) :=
  [f.clarity, f.context, f.relevance, f.specificity, f.creativity]

/-- `avg` from `prompt-evaluation.component.ts`: keep the numeric entries,
    return `null` if none, else the mean rounded to one decimal
    (`Math.round(mean * 10) / 10`). -/
def avg (vals : List (Option Rat)) : Option Rat :=
  let nums := vals.filterMap id
  if nums.length = 0 then none
  else some (mkRat (jsRound (qmulNat (qdivNat (qsum nums) nums.length) 10)) 10)

/-- `toTenFmt`: em-dash for `null`, else clamp to `[0,10]`, round to one
    decimal and render as `x/10`. -/
def toTenFmt (n : Option Rat) : String :=
  match n with
  | none => "—"
  | some v =>
    let w : Rat := if v ≤ 0 then 0 else if 10 ≤ v then 10 else v
    tenthsRepr (jsRound (qmulNat w 10)).toNat ++ "/10"

structure EvalScore where
  label : String
  score : String
  color : String
deriving DecidableEq

def evaluationScoresInit : List EvalScore :=
  [⟨"Clarity", "—", "text-amber-500"⟩,
   ⟨"Context", "—", "text-blue-500"⟩,
   ⟨"Relevance", "—", "text-green-500"⟩,
   ⟨"Specificity", "—", "text-purple-500"⟩,
   ⟨"Creativity", "—", "text-orange-500"⟩]

/-- The `mapping` record built inside `mapScores` (an absent label reads
    as `undefined`). -/
def scoreForLabel (f : FinalScores) (label : String) : Option Rat :=
  if label = "Clarity" then f.clarity
  else if label = "Context" then f.context
  else if label = "Creativity" then f.creativity
  else if label = "Specificity" then f.specificity
  else if label = "Relevance" then f.relevance
  else none

/-- Component state (the fields the evaluation flow touches), plus a
    console-log trail for the `console.*` calls. -/
structure CompState where
  loading : Bool
  errorMsg : Option String
  overallScore : Option Rat
  evaluationScores : List EvalScore
  suggestions : List Suggestion
  rewriteVersions : List RewriteVersion
  xpAwarded : Option Int
  lastPromptStored : Option String
  lastTraceStored : Option String
  logs : List String
deriving DecidableEq

def initialCompState : CompState :=
  ⟨false, none, none, evaluationScoresInit, [], [], none, none, none, []⟩

/-- `mapScores`. -/
def mapScores (st : CompState) (resp : ScoresResponse) : CompState :=
  { st with
    evaluationScores :=
      st.evaluationScores.map fun row =>
        { row with score := toTenFmt (scoreForLabel resp.final_scores row.label) }
    overallScore := avg (dims resp.final_scores) }

/-- `mapRecommendation` (`Array.isArray(...) ? ... : []`). -/
def mapRecommendation (st : CompState) (resp : ScoresResponse) : CompState :=
  { st with
    suggestions := resp.suggestions.getD []
    rewriteVersions := resp.rewriteVersions.getD [] }

/-- JS `x || null` on an optional string (empty string is falsy). -/
def jsOrNullStr (o : Option String) : Option String :=
  match o with
  | some s => if s = "" then none else some s
  | none => none

/-- JS `x ?? 0` on an optional number. -/
def jsNullishZero (o : Option Rat) : Rat := o.getD 0

/-- JS `x || 0` on an optional number (`0` is falsy, so `0 || 0 = 0`). -/
def jsOrZero (o : Option Rat) : Rat :=
  match o with
  | none => 0
  | some v => if v = 0 then 0 else v

/-- The record posted by `saveScoreToHistory`: every dimension coalesced
    with `?? 0`, the overall with `|| 0`, the trace id with `|| null`. -/
structure ScoreRecord where
  prompt : String
  overall_score : Rat
  clarity : Rat
  context : Rat
  relevance : Rat
  specificity : Rat
  creativity : Rat
  trace_id : Option String
deriving DecidableEq

/-- The outbound service calls fired by the handler. -/
inductive Effect where
  | addXp (amount : Int) (reason : String)
  | saveScore (rec : ScoreRecord)
deriving DecidableEq

/-- `awardXP`: no call when the score is `null`; otherwise
    `xp = max(10, round(score * 10))`, with success setting `xpAwarded`
    and failure only logged. -/
def awardXP (st : CompState) (score : Option Rat) (xpOk : Bool) : CompState × List Effect :=
  match score with
  | none => (st, [])
  | some s =>
    let xpAmount := intMax 10 (jsRound (qmulNat s 10))
    let reason := "Prompt evaluation (score: " ++ toFixed1 s ++ ")"
    let st' :=
      if xpOk then
        { st with xpAwarded := some xpAmount, logs := st.logs ++ ["Awarded XP"] }
      else
        { st with logs := st.logs ++ ["Failed to award XP:"] }
    (st', [Effect.addXp xpAmount reason])

/-- `saveScoreToHistory`: always posts the (null-coalesced) record; the
    outcome is only logged. -/
def saveScoreToHistory (st : CompState) (prompt : String) (resp : ScoresResponse) (histOk : Bool) :
    CompState × List Effect :=
  let rec_ : ScoreRecord :=
    { prompt := prompt
      overall_score := jsOrZero st.overallScore
      clarity := jsNullishZero resp.final_scores.clarity
      context := jsNullishZero resp.final_scores.context
      relevance := jsNullishZero resp.final_scores.relevance
      specificity := jsNullishZero resp.final_scores.specificity
      creativity := jsNullishZero resp.final_scores.creativity
      trace_id := jsOrNullStr resp.trace_id }
  let st' :=
    if histOk then { st with logs := st.logs ++ ["Score saved to history"] }
    else { st with logs := st.logs ++ ["Failed to save score to history:"] }
  (st', [Effect.saveScore rec_])

/-- The success (`next:`) branch of `handleResultsAndRecommendations`:
    map scores and recommendations, store the last response, award XP from
    the overall score, save the score history, clear `loading`. `xpOk` and
    `histOk` are the outcomes of the two side-effect calls. -/
def handleResultsAndRecommendations (st : CompState) (prompt : String) (resp : ScoresResponse)
    (xpOk histOk : Bool) : CompState × List Effect :=
  let st1 := mapScores st resp
  let st2 := mapRecommendation st1 resp
  let st3 := { st2 with
    lastPromptStored := some prompt
    lastTraceStored := jsOrNullStr resp.trace_id }
  let (st4, xpEffs) := awardXP st3 st3.overallScore xpOk
  let (st5, histEffs) := saveScoreToHistory st4 prompt resp histOk
  ({ st5 with loading := false }, xpEffs ++ histEffs)

/-- The `error:` branch of the subscription. -/
def handleEvaluationError (st : CompState) (msg : String) : CompState × List Effect :=
  ({ st with loading := false, errorMsg := some msg }, [])

/-- The delivered evaluation result: everything the caller sees, excluding
    the console-log trail and the XP-notification badge. -/
def deliveredResult (st : CompState) :
    Option Rat × List EvalScore × List Suggestion × List RewriteVersion ×
      Option String × Option String × Bool × Option String :=
  (st.overallScore, st.evaluationScores, st.suggestions, st.rewriteVersions,
   st.lastPromptStored, st.lastTraceStored, st.loading, st.errorMsg)

/-! ## Structured-form normalizer (`buildPromptFromForm` and lookups) -/

structure PromptForm where
  domain : String
  subtype : String
  title : String
  audience : String
  purpose : String
  keyPoints : String
  outputFormat : String
  tech : String
  lengthTarget : String
  tone : String
  exampleInput : String
  acceptance : String
  constraints : String
deriving DecidableEq

/-- `humanReadableDomain` (the `default` branch is `domain || 'General'`). -/
def humanReadableDomain (domain : String) : String :=
  if domain = "software_engineering" then "Software engineering"
  else if domain = "content_creation" then "Content creation"
  else if domain = "education" then "Education"
  else if domain = "" then "General"
  else domain

/-- The nested `map[domain][subtype]` lookup table in `humanReadableSubtype`. -/
def subtypeTable (domain subtype : String) : Option String :=
  if domain = "software_engineering" then
    if subtype = "full_stack_app" then some "full-stack application (frontend + backend + DB)"
    else if subtype = "backend_api" then some "backend API / microservice"
    else if subtype = "cli_tool" then some "CLI tool or script"
    else if subtype = "unit_tests" then some "unit tests and test plan"
    else if subtype = "refactor_plan" then some "refactor plan / architecture notes"
    else none
  else if domain = "content_creation" then
    if subtype = "blog_post" then some "blog post or article"
    else if subtype = "social_post_series" then some "social media post series"
    else if subtype = "video_script" then some "video script"
    else if subtype = "newsletter" then some "newsletter issue"
    else none
  else if domain = "education" then
    if subtype = "lesson_plan" then some "lesson plan"
    else if subtype = "quiz" then some "quiz with answer key"
    else if subtype = "summary" then some "topic summary"
    else if subtype = "exercise_set" then some "exercise set with solutions"
    else none
  else none

/-- `humanReadableSubtype`: `(map[domain] && map[domain][subtype]) || subtype || 'task'`. -/
def humanReadableSubtype (domain subtype : String) : String :=
  match subtypeTable domain subtype with
  | some s => s
  | none => if subtype = "" then "task" else subtype

/-- `formatLabel`: `m[fmt] || fmt`. -/
def formatLabel (fmt : String) : String :=
  if fmt = "plain" then "Plain text"
  else if fmt = "markdown" then "Markdown"
  else if fmt = "json" then "JSON"
  else if fmt = "html" then "HTML"
  else if fmt = "code" then "Source code"
  else fmt

/-- `buildPromptFromForm`: the `parts.push(...)` sequence (note the
    unconditional Task/Domain/format/Tone pushes and the `parts.push('')`
    in the `else` branch of the acceptance check), joined with spaces. -/
def buildPromptFromForm (f : PromptForm) : String :=
  let parts : List String :=
    ["Task: " ++ humanReadableSubtype f.domain f.subtype ++ "."]
    ++ (if f.title ≠ "" then ["Title: " ++ f.title ++ "."] else [])
    ++ (if f.purpose ≠ "" then ["Purpose: " ++ f.purpose ++ "."] else [])
    ++ (if f.audience ≠ "" then ["Target audience: " ++ f.audience ++ "."] else [])
    ++ ["Domain: " ++ humanReadableDomain f.domain ++ "."]
    ++ (if f.tech ≠ "" then ["Preferred tech/language: " ++ f.tech ++ "."] else [])
    ++ ["output format: " ++ formatLabel f.outputFormat ++ "."]
    ++ (if f.lengthTarget ≠ "" then ["Length target: " ++ f.lengthTarget ++ "."] else [])
    ++ ["Tone/style: " ++ f.tone ++ "."]
    ++ (if f.keyPoints ≠ "" then ["key points: " ++ f.keyPoints ++ "."] else [])
    ++ (if f.exampleInput ≠ "" then ["Example input: " ++ f.exampleInput ++ "."] else [])
    ++ (if f.acceptance ≠ "" then ["Acceptance criteria: " ++ f.acceptance ++ "."] else [""])
    ++ (if f.constraints ≠ "" then ["Constraints: " ++ f.constraints ++ "."] else [])
  String.intercalate " " parts

/-! ## HTTP entry points (evaluate handlers) -/

/-- A JS value as it may arrive in `req.body.prompt`. -/
inductive JsVal where
  | undef
  | str (s : String)
  | numv (n : Int)
  | objv
deriving DecidableEq

/-- JS truthiness (falsy: `undefined`, `''`, `0`). -/
def jsFalsy : JsVal → Bool
  | .undef => true
  | .str s => s = ""
  | .numv n => n = 0
  | .objv => false

/-- JS `String(x)` coercion. -/
def jsToString : JsVal → String
  | .undef => "undefined"
  | .str s => s
  | .numv n => intRepr n
  | .objv => "[object Object]"

structure HttpResponse where
  status : Nat
  body : Json

/-- A handler run: the HTTP response plus whether the downstream
    model/network call was made. -/
structure HandlerResult where
  response : HttpResponse
  downstreamCalled : Bool

/-- The 400 body shared by the Gemini evaluate handlers. -/
def errInvalidPromptBody : Json :=
  Json.obj [("error", Json.str "Missing or invalid 'prompt' in request body")]

/-- The guard of `evaluate` in `backend/src/Controllers/Prompts/evaluate.ts`:
    `!prompt || typeof prompt !== 'string' || !prompt.trim()`. -/
def backendPromptInvalid : JsVal → Bool
  | .str s => jsTrimList s.data = []
  | _ => true

/-- `evaluate` from `backend/src/Controllers/Prompts/evaluate.ts`, with the
    model's reply text as a parameter. -/
def evaluateHandler (prompt : JsVal) (modelReply : String) : HandlerResult :=
  if backendPromptInvalid prompt then ⟨⟨400, errInvalidPromptBody⟩, false⟩
  else ⟨⟨200, evaluatePrompt modelReply⟩, true⟩

/-- `evaluate` from `evalController.ts`:
    `String(req.body?.prompt ?? '').trim()` then a truthiness check. -/
def evalControllerEvaluate (prompt : JsVal) (modelReply : String) : HandlerResult :=
  let p := jsTrim (match prompt with | .undef => "" | v => jsToString v)
  if p = "" then ⟨⟨400, errInvalidPromptBody⟩, false⟩
  else ⟨⟨200, evaluatePromptWithGemini modelReply⟩, true⟩

/-- Outcome of the `fetch` to the Flask service. -/
inductive FetchOutcome where
  | ok (body : Json)
  | httpError (text : String)
  | networkError

/-- `evaluatePromptWithMyFlaskAI` from `evalController.ts`: a falsy prompt
    gets `204 \x7b message: 'Missing prompt' \x7d`; anything else is
    forwarded to the Flask service. -/
def evaluatePromptWithMyFlaskAI (prompt : JsVal) (flask : FetchOutcome) : HandlerResult :=
  if jsFalsy prompt then ⟨⟨204, Json.obj [("message", Json.str "Missing prompt")]⟩, false⟩
  else
    match flask with
    | .ok body => ⟨⟨200, body⟩, true⟩
    | .httpError t =>
      ⟨⟨502, Json.obj [("error", Json.str "Flask evaluate failed"), ("detail", Json.str t)]⟩, true⟩
    | .networkError => ⟨⟨500, Json.str "Internal Server Error Buoy"⟩, true⟩

/-! ## Usage counters (`EvaluationSchema.post('save')` in auth.ts) -/

/-- The key of a `TemplateUsage` document: `(template, user, date)`. -/
structure UsageKey where
  template : String
  user : String
  date : String
deriving DecidableEq

/-- The `TemplateUsage` collection: one counter per key. -/
abbrev UsageStore := List (UsageKey × Nat)

def usageLookup : UsageStore → UsageKey → Option Nat
  | [], _ => none
  | (k', n) :: t, k => if k' = k then some n else usageLookup t k

/-- `TemplateUsage.updateOne({template,user,date}, {$inc: {count: 1}},
    {upsert: true})`: increment the existing counter, or create the
    document with `count = 1`. -/
def usageUpsertInc : UsageStore → UsageKey → UsageStore
  | [], k => [(k, 1)]
  | (k', n) :: t, k =>
    if k' = k then (k', n + 1) :: t else (k', n) :: usageUpsertInc t k

/-- The evaluation document as seen by the post-save hook. -/
structure EvaluationDoc where
  template : Option String
  user : String
deriving DecidableEq

/-- The usage-increment post-save hook: no-op without a template id,
    otherwise upsert-increment the `(template, user, day)` counter. -/
def postSaveIncrementUsage (store : UsageStore) (e : EvaluationDoc) (day : String) : UsageStore :=
  match e.template with
  | none => store
  | some t => usageUpsertInc store ⟨t, e.user, day⟩

/-- The operations of the evaluation pipeline that touch the usage store:
    saving an evaluation is the only one. -/
inductive PipelineOp where
  | saveEvaluation (e : EvaluationDoc) (day : String)

def runPipeline (ops : List PipelineOp) (store : UsageStore) : UsageStore :=
  ops.foldl (fun s op => match op with | .saveEvaluation e day => postSaveIncrementUsage s e day) store

/-- Counter value of a key (an absent document counts as 0). -/
def usageCount (s : UsageStore) (k : UsageKey) : Nat := (usageLookup s k).getD 0

/-! ## Bridging the `mkRat` arithmetic to the ℚ field operations -/

theorem mkRat_eq_div' (n : Int) (d : Nat) : mkRat n d = (n : Rat) / (d : Rat) := by
  rw [Rat.mkRat_eq_divInt, Rat.divInt_eq_div]
  norm_cast

theorem ratFloor_eq (q : Rat) : q.floor = ⌊q⌋ :=
  (Rat.floor_def' q).trans Rat.floor_def.symm

theorem qadd_eq (a b : Rat) : qadd a b = a + b := by
  have ha : (a.den : Rat) ≠ 0 := Nat.cast_ne_zero.mpr a.den_nz
  have hb : (b.den : Rat) ≠ 0 := Nat.cast_ne_zero.mpr b.den_nz
  rw [qadd, mkRat_eq_div']
  push_cast
  conv_rhs => rw [← Rat.num_div_den a, ← Rat.num_div_den b]
  field_simp

theorem qmulNat_eq (a : Rat) (n : Nat) : qmulNat a n = a * n := by
  have ha : (a.den : Rat) ≠ 0 := Nat.cast_ne_zero.mpr a.den_nz
  rw [qmulNat, mkRat_eq_div']
  push_cast
  conv_rhs => rw [← Rat.num_div_den a]
  field_simp

theorem qdivNat_eq (a : Rat) (n : Nat) (h : n ≠ 0) : qdivNat a n = a / n := by
  have ha : (a.den : Rat) ≠ 0 := Nat.cast_ne_zero.mpr a.den_nz
  have hn : (n : Rat) ≠ 0 := Nat.cast_ne_zero.mpr h
  rw [qdivNat, mkRat_eq_div']
  push_cast
  conv_rhs => rw [← Rat.num_div_den a]
  field_simp

theorem qsum_foldl (xs : List Rat) (init : Rat) : xs.foldl qadd init = init + xs.sum := by
  induction xs generalizing init with
  | nil => simp [qsum]
  | cons x t ih => simp [List.foldl_cons, qadd_eq, ih, List.sum_cons]; ring

theorem qsum_eq (xs : List Rat) : qsum xs = xs.sum := by
  rw [qsum, qsum_foldl, zero_add]

theorem jsRound_eq (q : Rat) : jsRound q = ⌊q + 1 / 2⌋ := by
  have ha : (q.den : Rat) ≠ 0 := Nat.cast_ne_zero.mpr q.den_nz
  rw [jsRound, ratFloor_eq, mkRat_eq_div']
  congr 1
  push_cast
  conv_rhs => rw [← Rat.num_div_den q]
  field_simp
  ring

/-! ## Claim developments -/

/-- The spec's overall-score rule (P2), written with the ℚ field
    operations: arithmetic mean of the non-null dimensions, rounded to one
    decimal (`round(x*10)/10`, halves up); `none` when every dimension is
    missing. Reference definition for the refinement proof against `avg`. -/
def overallSpec (vals : List (Option Rat)) : Option Rat :=
  let present := vals.filterMap id
  if present = [] then none
  else some ((⌊present.sum / (present.length : Rat) * 10 + 1 / 2⌋ : Int) / (10 : Rat))

/-- C2: for any ScoreVector with a non-empty subset of non-null dimensions
    the computed overall equals the mean of the non-null dimensions rounded
    to one decimal (missing dimensions ignored, not counted as zero), and
    when all five dimensions are null the overall is `null`, not 0. -/
theorem avg_matches_overall_spec :
    (∀ vals : List (Option Rat), avg vals = overallSpec vals) ∧
    avg [some (mkRat 8 1), some (mkRat 7 1), some (mkRat 9 1), none, some (mkRat 6 1)] =
      some (mkRat 15 2) ∧
    avg [some (mkRat 8 1), some (mkRat 7 1), some (mkRat 9 1), none, some (mkRat 6 1)] ≠
      some (mkRat 6 1) ∧
    avg [none, none, none, none, none] = none := by
  refine ⟨?_, by decide, by decide, by decide⟩
  intro vals
  unfold avg overallSpec
  cases h : vals.filterMap id with
  | nil => simp [h]
  | cons x t =>
    simp only [h, List.length_cons, Nat.succ_ne_zero, if_false, reduceCtorEq,
      List.cons_ne_nil, if_neg, ne_eq, not_false_iff]
    rw [mkRat_eq_div', jsRound_eq, qmulNat_eq, qdivNat_eq _ _ (by simp), qsum_eq]
    norm_cast

/-- The history record the handler posts for a given prompt/response. -/
def historyRecordOf (prompt : String) (resp : ScoresResponse) : ScoreRecord :=
  ⟨prompt, jsOrZero (avg (dims resp.final_scores)),
    jsNullishZero resp.final_scores.clarity, jsNullishZero resp.final_scores.context,
    jsNullishZero resp.final_scores.relevance, jsNullishZero resp.final_scores.specificity,
    jsNullishZero resp.final_scores.creativity, jsOrNullStr resp.trace_id⟩

/-- Characterization of the side-effect calls fired by the handler: one XP
    call iff the overall score is non-null, then always the history save;
    the call list does not depend on either call's outcome. -/
theorem handle_effects (st : CompState) (prompt : String) (resp : ScoresResponse)
    (xpOk histOk : Bool) :
    (handleResultsAndRecommendations st prompt resp xpOk histOk).2 =
      (match avg (dims resp.final_scores) with
       | none => []
       | some s => [Effect.addXp (intMax 10 (jsRound (qmulNat s 10)))
            ("Prompt evaluation (score: " ++ toFixed1 s ++ ")")]) ++
      [Effect.saveScore (historyRecordOf prompt resp)] := by
  cases h : avg (dims resp.final_scores) with
  | none =>
    cases xpOk <;> cases histOk <;>
      simp [handleResultsAndRecommendations, mapScores, mapRecommendation, awardXP,
        saveScoreToHistory, historyRecordOf, h]
  | some s =>
    cases xpOk <;> cases histOk <;>
      simp [handleResultsAndRecommendations, mapScores, mapRecommendation, awardXP,
        saveScoreToHistory, historyRecordOf, h]

/-- A concrete scores response (the spec's scenario vector 6/5/7/4/5). -/
def respScenario : ScoresResponse :=
  ⟨⟨some (mkRat 6 1), some (mkRat 5 1), some (mkRat 7 1), some (mkRat 4 1), some (mkRat 5 1)⟩,
    none, none, none⟩

/-- A response whose five dimensions are all null (parse-failure shape). -/
def respAllNull : ScoresResponse := ⟨⟨none, none, none, none, none⟩, none, none, none⟩

/-- C6: whenever the evaluation has a non-null overall score `s`, the XP
    amount awarded equals `max(10, round(s * 10))`. -/
theorem xp_award_amount_policy (s : Rat) :
    intMax 10 (jsRound (qmulNat s 10)) = max 10 ⌊s * 10 + 1 / 2⌋ ∧
    ∀ (st : CompState) (prompt : String) (resp : ScoresResponse) (xpOk histOk : Bool),
      avg (dims resp.final_scores) = some s →
      Effect.addXp (intMax 10 (jsRound (qmulNat s 10)))
          ("Prompt evaluation (score: " ++ toFixed1 s ++ ")") ∈
        (handleResultsAndRecommendations st prompt resp xpOk histOk).2 := by
  constructor
  · rw [intMax, jsRound_eq, qmulNat_eq, max_def]
    norm_num
  · intro st prompt resp xpOk histOk h
    rw [handle_effects, h]
    simp

/-- Witness for C6: the scenario response averages to 5.4 and earns
    `max(10, 54) = 54` XP. -/
theorem xp_award_amount_policy_witness :
    avg (dims respScenario.final_scores) = some (mkRat 27 5) ∧
    Effect.addXp 54 "Prompt evaluation (score: 5.4)" ∈
      (handleResultsAndRecommendations initialCompState "p" respScenario true true).2 :=
  ⟨by decide,
   (xp_award_amount_policy (mkRat 27 5)).2 initialCompState "p" respScenario true true (by decide)⟩

/-- C10: when the computed overall score is null, no XP call at all is
    made by the handler. -/
theorem no_xp_call_without_overall (st : CompState) (prompt : String) (resp : ScoresResponse)
    (xpOk histOk : Bool) (h : avg (dims resp.final_scores) = none) (a : Int) (r : String) :
    Effect.addXp a r ∉ (handleResultsAndRecommendations st prompt resp xpOk histOk).2 := by
  rw [handle_effects, h]
  simp [historyRecordOf]

/-- Witness for C10: the all-null response triggers no XP call. -/
theorem no_xp_call_without_overall_witness :
    Effect.addXp 10 "Prompt evaluation (score: 0.0)" ∉
      (handleResultsAndRecommendations initialCompState "p" respAllNull true true).2 :=
  no_xp_call_without_overall initialCompState "p" respAllNull true true (by decide) 10
    "Prompt evaluation (score: 0.0)"

/-- C5: the side-effect calls fired by the handler do not depend on either
    side effect's outcome (in particular the XP call still happens when the
    history write fails), and the delivered evaluation result is the same
    whatever the outcomes are — failures change nothing but the log trail. -/
theorem side_effect_isolation (st : CompState) (prompt : String) (resp : ScoresResponse)
    (xpOk xpOk' histOk histOk' : Bool) :
    (handleResultsAndRecommendations st prompt resp xpOk histOk).2 =
      (handleResultsAndRecommendations st prompt resp xpOk' histOk').2 ∧
    deliveredResult (handleResultsAndRecommendations st prompt resp xpOk histOk).1 =
      deliveredResult (handleResultsAndRecommendations st prompt resp xpOk' histOk').1 ∧
    ((avg (dims resp.final_scores)).isSome →
      ∃ a r, Effect.addXp a r ∈ (handleResultsAndRecommendations st prompt resp xpOk false).2) := by
  refine ⟨by rw [handle_effects, handle_effects], ?_, ?_⟩
  · cases h : avg (dims resp.final_scores) with
    | none =>
      cases xpOk <;> cases histOk <;> cases xpOk' <;> cases histOk' <;>
        simp [handleResultsAndRecommendations, mapScores, mapRecommendation, awardXP,
          saveScoreToHistory, deliveredResult, h]
    | some s =>
      cases xpOk <;> cases histOk <;> cases xpOk' <;> cases histOk' <;>
        simp [handleResultsAndRecommendations, mapScores, mapRecommendation, awardXP,
          saveScoreToHistory, deliveredResult, h]
  · intro hs
    obtain ⟨s, h⟩ := Option.isSome_iff_exists.mp hs
    refine ⟨intMax 10 (jsRound (qmulNat s 10)), "Prompt evaluation (score: " ++ toFixed1 s ++ ")", ?_⟩
    rw [handle_effects, h]
    simp

/-- Witness for C5: with the scenario response, a failed history write
    leaves the call list identical to the all-success run and the XP call
    is still among the fired calls. -/
theorem side_effect_isolation_witness :
    (handleResultsAndRecommendations initialCompState "p" respScenario true false).2 =
      (handleResultsAndRecommendations initialCompState "p" respScenario true true).2 ∧
    ∃ a r, Effect.addXp a r ∈
      (handleResultsAndRecommendations initialCompState "p" respScenario true false).2 :=
  ⟨(side_effect_isolation initialCompState "p" respScenario true true false true).1,
   (side_effect_isolation initialCompState "p" respScenario true true false true).2.2 (by decide)⟩

/-- Counterexample for C8: for the all-null response the overall is null
    upstream, yet the persisted record carries zeros everywhere (the
    `?? 0` / `|| 0` coalescing), not nulls. -/
theorem history_record_counterexample :
    avg (dims respAllNull.final_scores) = none ∧
    (handleResultsAndRecommendations initialCompState "p" respAllNull true true).2 =
      [Effect.saveScore ⟨"p", 0, 0, 0, 0, 0, 0, none⟩] := by
  constructor
  · decide
  · rw [handle_effects]
    decide

/-- C8 (amended): the handler always posts exactly one history record, in
    which every missing dimension has been coalesced to 0 (`?? 0`) and a
    missing overall to 0 (`|| 0`) — missing values are not preserved. -/
theorem history_record_coalesces_nulls (st : CompState) (prompt : String)
    (resp : ScoresResponse) (xpOk histOk : Bool) :
    Effect.saveScore (historyRecordOf prompt resp) ∈
      (handleResultsAndRecommendations st prompt resp xpOk histOk).2 ∧
    jsNullishZero none = 0 ∧ jsOrZero none = 0 := by
  refine ⟨?_, rfl, rfl⟩
  rw [handle_effects]
  cases avg (dims resp.final_scores) <;> simp

theorem usageLookup_upsert_self (s : UsageStore) (k : UsageKey) :
    usageLookup (usageUpsertInc s k) k = some (usageCount s k + 1) := by
  induction s with
  | nil => simp [usageUpsertInc, usageLookup, usageCount]
  | cons p t ih =>
    obtain ⟨k', n⟩ := p
    by_cases hk : k' = k <;>
      simp [usageUpsertInc, usageLookup, usageCount, hk, ih]

theorem usageCount_upsert_le (s : UsageStore) (k k' : UsageKey) :
    usageCount s k ≤ usageCount (usageUpsertInc s k') k := by
  induction s with
  | nil => simp [usageUpsertInc, usageCount, usageLookup]
  | cons p t ih =>
    obtain ⟨k'', n⟩ := p
    simp only [usageUpsertInc]
    by_cases h1 : k'' = k'
    · subst h1
      simp only [if_pos rfl]
      by_cases h3 : k'' = k
      · subst h3; simp [usageCount, usageLookup]
      · simp [usageCount, usageLookup, h3]
    · simp only [if_neg h1]
      by_cases h2 : k'' = k
      · subst h2; simp [usageCount, usageLookup]
      · simpa [usageCount, usageLookup, h2] using ih

theorem postSave_usage_le (store : UsageStore) (e : EvaluationDoc) (day : String) (k : UsageKey) :
    usageCount store k ≤ usageCount (postSaveIncrementUsage store e day) k := by
  cases h : e.template with
  | none => simp [postSaveIncrementUsage, h]
  | some t => simpa [postSaveIncrementUsage, h] using usageCount_upsert_le store k ⟨t, e.user, day⟩

/-- C9: saving an evaluation that carries a template id increments the
    `(template, user, day)` usage counter by exactly one (creating it at 1
    when absent), and no pipeline operation ever decreases a usage counter,
    so counters are monotonically non-decreasing over any operation
    sequence. -/
theorem usage_counter_increment_monotone :
    (∀ (store : UsageStore) (e : EvaluationDoc) (day t : String),
      e.template = some t →
      usageCount (postSaveIncrementUsage store e day) ⟨t, e.user, day⟩ =
        usageCount store ⟨t, e.user, day⟩ + 1 ∧
      (usageLookup store ⟨t, e.user, day⟩ = none →
        usageLookup (postSaveIncrementUsage store e day) ⟨t, e.user, day⟩ = some 1)) ∧
    (∀ (ops : List PipelineOp) (store : UsageStore) (k : UsageKey),
      usageCount store k ≤ usageCount (runPipeline ops store) k) := by
  constructor
  · intro store e day t h
    constructor
    · simp [postSaveIncrementUsage, h, usageCount, usageLookup_upsert_self]
    · intro habs
      have := usageLookup_upsert_self store ⟨t, e.user, day⟩
      simp [postSaveIncrementUsage, h, this, usageCount, habs]
  · intro ops
    induction ops with
    | nil => intro store k; simp [runPipeline]
    | cons op t ih =>
      intro store k
      cases op with
      | saveEvaluation e day =>
        calc usageCount store k ≤ usageCount (postSaveIncrementUsage store e day) k :=
              postSave_usage_le store e day k
          _ ≤ usageCount (runPipeline t (postSaveIncrementUsage store e day)) k := ih _ k
          _ = usageCount (runPipeline (PipelineOp.saveEvaluation e day :: t) store) k := by
              simp [runPipeline]

/-- Witness for C9: on an empty store, one save with template `tpl`
    creates the `(tpl, u1, 2026-10-11)` counter at 1, and a second save
    raises it to 2. -/
theorem usage_counter_increment_monotone_witness :
    usageCount (postSaveIncrementUsage [] ⟨some "tpl", "u1"⟩ "2026-10-11")
        ⟨"tpl", "u1", "2026-10-11"⟩ = usageCount [] ⟨"tpl", "u1", "2026-10-11"⟩ + 1 ∧
    usageLookup (postSaveIncrementUsage [] ⟨some "tpl", "u1"⟩ "2026-10-11")
        ⟨"tpl", "u1", "2026-10-11"⟩ = some 1 ∧
    usageCount [] ⟨"tpl", "u1", "2026-10-11"⟩ ≤
      usageCount (runPipeline [PipelineOp.saveEvaluation ⟨some "tpl", "u1"⟩ "2026-10-11",
        PipelineOp.saveEvaluation ⟨some "tpl", "u1"⟩ "2026-10-11"] [])
        ⟨"tpl", "u1", "2026-10-11"⟩ :=
  ⟨(usage_counter_increment_monotone.1 [] ⟨some "tpl", "u1"⟩ "2026-10-11" "tpl" rfl).1,
   (usage_counter_increment_monotone.1 [] ⟨some "tpl", "u1"⟩ "2026-10-11" "tpl" rfl).2 rfl,
   usage_counter_increment_monotone.2
     [PipelineOp.saveEvaluation ⟨some "tpl", "u1"⟩ "2026-10-11",
      PipelineOp.saveEvaluation ⟨some "tpl", "u1"⟩ "2026-10-11"] []
     ⟨"tpl", "u1", "2026-10-11"⟩⟩

/-- C4: whenever the extracted content of the model reply fails to parse
    as JSON, the evaluator returns the degraded shape — all five dimension
    fields null, empty `suggestions` and `rewriteVersions`, `_raw` the raw
    text and `_error` a parse-error message — instead of raising (the
    embedding is a total function: `JSON.parse` failures surface as `none`
    and are swallowed by `tryParseJson`). -/
theorem malformed_output_degrades (text : String)
    (h : tryParseJson (extractFirstJsonBlock text) = none) :
    evaluatePromptWithGemini text =
      Json.obj [("clarity", Json.null), ("context", Json.null), ("relevance", Json.null),
                ("specificity", Json.null), ("creativity", Json.null),
                ("suggestions", Json.arr []), ("rewriteVersions", Json.arr []),
                ("_raw", Json.str text),
                ("_error", Json.str "Failed to parse JSON from model output.")] := by
  simp only [evaluatePromptWithGemini, h]
  rfl

/-- Witness for C4: a fenced block with a trailing comma fails to parse
    and yields the degraded shape; unbalanced braces also fail to parse. -/
theorem malformed_output_degrades_witness :
    (tryParseJson (extractFirstJsonBlock "```json\n\x7b\"a\": 1,\x7d\n```") = none ∧
      evaluatePromptWithGemini "```json\n\x7b\"a\": 1,\x7d\n```" =
        Json.obj [("clarity", Json.null), ("context", Json.null), ("relevance", Json.null),
                  ("specificity", Json.null), ("creativity", Json.null),
                  ("suggestions", Json.arr []), ("rewriteVersions", Json.arr []),
                  ("_raw", Json.str "```json\n\x7b\"a\": 1,\x7d\n```"),
                  ("_error", Json.str "Failed to parse JSON from model output.")]) ∧
    tryParseJson (extractFirstJsonBlock "\x7b\"a\": \x7b") = none :=
  ⟨⟨rfl, malformed_output_degrades "```json\n\x7b\"a\": 1,\x7d\n```" rfl⟩, rfl⟩

/-- C1 (code_bug evidence): on the reply `\x7b"clarity": 7\x7d`, the
    `evalController` extraction chain returns the parsed bare object as the
    claim describes, but the backend `evaluatePrompt` site returns `\x7b\x7d`
    (its regex has no capture group, so it parses `match[1] = undefined`),
    and the shipped dist variant (reading `match[0]`) still truncates any
    nested object because its pattern is lazy and has no fenced-block
    preference. -/
theorem backend_extraction_divergence :
    evaluatePrompt "\x7b\"clarity\": 7\x7d" = Json.obj [] ∧
    tryParseJson (extractFirstJsonBlock "\x7b\"clarity\": 7\x7d") =
      some (Json.obj [("clarity", Json.num (mkRat 7 1))]) ∧
    evaluatePromptDist "```json\n\x7b\"a\": \x7b\"b\": 1\x7d\x7d\n```" = Json.obj [] ∧
    evaluatePromptWithGemini "```json\n\x7b\"a\": \x7b\"b\": 1\x7d\x7d\n```" =
      Json.obj [("a", Json.obj [("b", Json.num (mkRat 1 1))])] :=
  ⟨rfl, rfl, rfl, rfl⟩

/-- Counterexample for C3: at the Flask-proxy evaluation entry point a
    whitespace-only prompt is not rejected with 400 — the downstream call
    is made and the upstream status is passed through — and a missing
    prompt gets a 204 `\x7b message: 'Missing prompt' \x7d`, not the
    claimed 400 error body. -/
theorem prompt_validation_counterexample :
    jsTrimList "   ".data = [] ∧
    (evaluatePromptWithMyFlaskAI (JsVal.str "   ") (FetchOutcome.ok (Json.obj []))).downstreamCalled
      = true ∧
    (evaluatePromptWithMyFlaskAI (JsVal.str "   ") (FetchOutcome.ok (Json.obj []))).response.status
      = 200 ∧
    (evaluatePromptWithMyFlaskAI JsVal.undef (FetchOutcome.ok (Json.obj []))).response.status
      = 204 := by
  exact ⟨by decide, rfl, rfl, rfl⟩

/-- C3 (amended): the two Gemini evaluate handlers reject a missing,
    empty or whitespace-only prompt — and the backend handler also any
    non-string prompt — with HTTP 400, the body
    `\x7b error: "Missing or invalid 'prompt' in request body" \x7d`
    (not the spec's shorter message) and no model call; the Flask-proxy
    entry point instead answers 204 `\x7b message: 'Missing prompt' \x7d`
    only for a falsy prompt and forwards whitespace-only prompts
    downstream. -/
theorem prompt_validation_amended (s reply : String) (flask : FetchOutcome) (n : Int) :
    (jsTrimList s.data = [] →
      evaluateHandler (JsVal.str s) reply = ⟨⟨400, errInvalidPromptBody⟩, false⟩ ∧
      evalControllerEvaluate (JsVal.str s) reply = ⟨⟨400, errInvalidPromptBody⟩, false⟩) ∧
    evaluateHandler JsVal.undef reply = ⟨⟨400, errInvalidPromptBody⟩, false⟩ ∧
    evalControllerEvaluate JsVal.undef reply = ⟨⟨400, errInvalidPromptBody⟩, false⟩ ∧
    evaluateHandler (JsVal.numv n) reply = ⟨⟨400, errInvalidPromptBody⟩, false⟩ ∧
    evaluateHandler JsVal.objv reply = ⟨⟨400, errInvalidPromptBody⟩, false⟩ ∧
    evaluatePromptWithMyFlaskAI JsVal.undef flask =
      ⟨⟨204, Json.obj [("message", Json.str "Missing prompt")]⟩, false⟩ ∧
    (s ≠ "" → (evaluatePromptWithMyFlaskAI (JsVal.str s) flask).downstreamCalled = true) := by
  refine ⟨?_, rfl, rfl, rfl, rfl, rfl, ?_⟩
  · intro h
    constructor
    · simp [evaluateHandler, backendPromptInvalid, h]
    · have : jsTrim s = "" := by
        simp [jsTrim, h]
      simp [evalControllerEvaluate, jsToString, this]
  · intro h
    simp only [evaluatePromptWithMyFlaskAI, jsFalsy, h]
    cases flask <;> simp

/-- Witness for C3 (amended): the single-space prompt is rejected by the
    backend handler without a model call, yet the Flask entry point still
    calls downstream for it. -/
theorem prompt_validation_amended_witness :
    evaluateHandler (JsVal.str " ") "" = ⟨⟨400, errInvalidPromptBody⟩, false⟩ ∧
    (evaluatePromptWithMyFlaskAI (JsVal.str " ") FetchOutcome.networkError).downstreamCalled
      = true :=
  ⟨((prompt_validation_amended " " "" FetchOutcome.networkError 5).1 (by decide)).1,
   (prompt_validation_amended " " "" FetchOutcome.networkError 5).2.2.2.2.2.2 (by decide)⟩

/-- The rendering rule as the original claim states it: every section whose
    field is empty is omitted (reference definition for the refutation). -/
def buildPromptOmittingEmpty (f : PromptForm) : String :=
  let parts : List String :=
    ["Task: " ++ humanReadableSubtype f.domain f.subtype ++ "."]
    ++ (if f.title ≠ "" then ["Title: " ++ f.title ++ "."] else [])
    ++ (if f.purpose ≠ "" then ["Purpose: " ++ f.purpose ++ "."] else [])
    ++ (if f.audience ≠ "" then ["Target audience: " ++ f.audience ++ "."] else [])
    ++ (if f.domain ≠ "" then ["Domain: " ++ humanReadableDomain f.domain ++ "."] else [])
    ++ (if f.tech ≠ "" then ["Preferred tech/language: " ++ f.tech ++ "."] else [])
    ++ (if f.outputFormat ≠ "" then ["output format: " ++ formatLabel f.outputFormat ++ "."] else [])
    ++ (if f.lengthTarget ≠ "" then ["Length target: " ++ f.lengthTarget ++ "."] else [])
    ++ (if f.tone ≠ "" then ["Tone/style: " ++ f.tone ++ "."] else [])
    ++ (if f.keyPoints ≠ "" then ["key points: " ++ f.keyPoints ++ "."] else [])
    ++ (if f.exampleInput ≠ "" then ["Example input: " ++ f.exampleInput ++ "."] else [])
    ++ (if f.acceptance ≠ "" then ["Acceptance criteria: " ++ f.acceptance ++ "."] else [])
    ++ (if f.constraints ≠ "" then ["Constraints: " ++ f.constraints ++ "."] else [])
  String.intercalate " " parts

def emptyPromptForm : PromptForm := ⟨"", "", "", "", "", "", "", "", "", "", "", "", ""⟩

/-- Counterexample for C7: on the all-empty form the code still renders
    Domain, output-format and Tone sections with empty fields (plus a
    dangling empty segment from the acceptance `else` branch), so the
    "omit every empty section" rendering is not what the code produces. -/
theorem normalizer_counterexample :
    buildPromptFromForm emptyPromptForm =
      "Task: task. Domain: General. output format: . Tone/style: . " ∧
    buildPromptOmittingEmpty emptyPromptForm = "Task: task." ∧
    buildPromptFromForm emptyPromptForm ≠ buildPromptOmittingEmpty emptyPromptForm := by
  exact ⟨rfl, rfl, by decide⟩

/-- The amended normalizer contract, one entry per section in the fixed
    order task, title, purpose, audience, domain, tech, output format,
    length target, tone, key points, example, acceptance, constraints:
    the task, domain, output-format and tone sections are always rendered
    (with `General`/raw-key/`task` fallbacks for unknown or empty keys),
    the optional sections are omitted when their field is empty, and an
    empty acceptance contributes an empty segment. -/
def amendedSections (f : PromptForm) : List (Option String) :=
  [some ("Task: " ++ humanReadableSubtype f.domain f.subtype ++ "."),
   if f.title ≠ "" then some ("Title: " ++ f.title ++ ".") else none,
   if f.purpose ≠ "" then some ("Purpose: " ++ f.purpose ++ ".") else none,
   if f.audience ≠ "" then some ("Target audience: " ++ f.audience ++ ".") else none,
   some ("Domain: " ++ humanReadableDomain f.domain ++ "."),
   if f.tech ≠ "" then some ("Preferred tech/language: " ++ f.tech ++ ".") else none,
   some ("output format: " ++ formatLabel f.outputFormat ++ "."),
   if f.lengthTarget ≠ "" then some ("Length target: " ++ f.lengthTarget ++ ".") else none,
   some ("Tone/style: " ++ f.tone ++ "."),
   if f.keyPoints ≠ "" then some ("key points: " ++ f.keyPoints ++ ".") else none,
   if f.exampleInput ≠ "" then some ("Example input: " ++ f.exampleInput ++ ".") else none,
   if f.acceptance ≠ "" then some ("Acceptance criteria: " ++ f.acceptance ++ ".") else some "",
   if f.constraints ≠ "" then some ("Constraints: " ++ f.constraints ++ ".") else none]

def buildPromptAmendedSpec (f : PromptForm) : String :=
  String.intercalate " " ((amendedSections f).filterMap id)

theorem filterMap_id_cons (o : Option String) (rest : List (Option String)) :
    List.filterMap id (o :: rest) = o.toList ++ List.filterMap id rest := by
  cases o <;> simp

/-- C7 (amended): the normalizer deterministically renders exactly the
    amended section list, in the fixed order. -/
theorem normalizer_amended (f : PromptForm) :
    buildPromptFromForm f = buildPromptAmendedSpec f := by
  unfold buildPromptFromForm buildPromptAmendedSpec amendedSections
  simp only [filterMap_id_cons, List.filterMap_nil, apply_ite Option.toList,
    Option.toList_some, Option.toList_none]
  simp [List.append_assoc]
